import Mathlib

/-!
Verification development for the TomatoClock Pomodoro timer
(src/TomatoClock.ino).

The sketch keeps its whole runtime in globals: a `TimerState` enum, the
current phase flag `onBreak`, millisecond bookkeeping `startTime` /
`pausedTime` (unsigned long, 32-bit on the target), the two durations in
seconds (C `int`), the session counter, the auto-start flag, and the
help-overlay flag.  We embed that record as `ClockState` and each
state-mutating routine of the sketch as a pure function
`ClockState → … → ClockState`, with the clock value `millis()` passed in
explicitly as `now`.  Unsigned 32-bit subtraction (`millis() - startTime`
and friends) is embedded as `usub32`, arithmetic modulo 2^32 on `Nat`.

The border progress bar drawn by `drawUI` is embedded as the pure
projection `project`, mapping a filled length to the four edge segment
lengths the sketch paints.
-/

/-- The `TimerState` enum of the sketch (line 22). -/
inductive TimerState
  | STOPPED
  | RUNNING
  | PAUSED
deriving DecidableEq, Repr

/-- The global mutable state of the sketch (lines 22-36).  `startTime` and
`pausedTime` are `unsigned long` milliseconds; durations are C `int`
seconds; `statusMessage` is the display string. -/
structure ClockState where
  state : TimerState
  startTime : Nat
  pausedTime : Nat
  focusDuration : Int
  breakDuration : Int
  onBreak : Bool
  sessionsCompleted : Int
  autoStartNext : Bool
  showHelp : Bool
  statusMessage : String
deriving DecidableEq, Repr

/-- Unsigned 32-bit subtraction, as performed by `millis() - startTime`
on the target where `unsigned long` is 32 bits: the result is
`a - b` modulo `2^32`. -/
def usub32 (a b : Nat) : Nat :=
  (2 ^ 32 + a % 2 ^ 32 - b % 2 ^ 32) % 2 ^ 32

/-- The initial global state of the sketch (lines 22-36).  The duration
initializers are `0.5 * 60` and `0.2 * 60`: C double arithmetic truncated
to `int`, giving 30 and 12 seconds.  The adjacent comments in the source
say "Default: 25 min" and "Default: 5 min" (1500 s and 300 s), which the
initializers contradict. -/
def initState : ClockState :=
  { state := .STOPPED
    startTime := 0
    pausedTime := 0
    focusDuration := 30
    breakDuration := 12
    onBreak := false
    sessionsCompleted := 0
    autoStartNext := false
    showHelp := false
    statusMessage := "[S]tart Focus" }

/-- Duration of the current phase, `onBreak ? breakDuration : focusDuration`. -/
def currentDuration (s : ClockState) : Int :=
  if s.onBreak then s.breakDuration else s.focusDuration

/-- Embeds `resetTimer()` (lines 158-164): forces STOPPED and the Focus phase,
sets `startTime = millis()`, resets the status message.  It does not touch
`pausedTime`, `sessionsCompleted`, `autoStartNext` or the durations. -/
def resetTimer (s : ClockState) (now : Nat) : ClockState :=
  { s with
    state := .STOPPED
    onBreak := false
    startTime := now
    statusMessage := "[S]tart Focus" }

/-- Embeds `startTimer()` (lines 166-176): from STOPPED or PAUSED transitions to
RUNNING; resuming from PAUSED recomputes `startTime = millis() - pausedTime`
so the elapsed time survives the pause; otherwise a no-op. -/
def startTimer (s : ClockState) (now : Nat) : ClockState :=
  if s.state = .STOPPED ∨ s.state = .PAUSED then
    { s with
      startTime := if s.state = .PAUSED then usub32 now s.pausedTime else now
      state := .RUNNING
      statusMessage := if s.onBreak then "Relax Mode" else "Focus Mode" }
  else s

/-- Embeds `pauseTimer()` (lines 178-184): from RUNNING captures
`pausedTime = millis() - startTime` and transitions to PAUSED; otherwise a
no-op. -/
def pauseTimer (s : ClockState) (now : Nat) : ClockState :=
  if s.state = .RUNNING then
    { s with
      pausedTime := usub32 now s.startTime
      state := .PAUSED
      statusMessage := "Paused. [S]tart" }
  else s

/-- Embeds `int elapsed = (millis() - startTime) / 1000;` (line 268): unsigned
32-bit subtraction, unsigned division by 1000, then conversion to `int`
(always in range, since `2^32 / 1000 < 2^31`). -/
def tickElapsed (s : ClockState) (now : Nat) : Int :=
  ((usub32 now s.startTime) / 1000 : Nat)

/-- Embeds `int remaining = (onBreak ? breakDuration : focusDuration) - elapsed;`
(line 269). -/
def tickRemaining (s : ClockState) (now : Nat) : Int :=
  currentDuration s - tickElapsed s now

/-- The per-iteration timer evaluation of `loop()` (lines 267-284): when
RUNNING and `remaining <= 0`, flip the phase, increment
`sessionsCompleted` when the *new* phase is Focus (`if (!onBreak)` after
the flip, line 274), then either restart in the new phase
(`autoStartNext`) or stop.  Otherwise the state is unchanged. -/
def tick (s : ClockState) (now : Nat) : ClockState :=
  if s.state = .RUNNING then
    if tickRemaining s now ≤ 0 then
      let newOnBreak := !s.onBreak
      let newSessions :=
        if !newOnBreak then s.sessionsCompleted + 1 else s.sessionsCompleted
      if s.autoStartNext then
        { s with
          onBreak := newOnBreak
          sessionsCompleted := newSessions
          startTime := now
          state := .RUNNING
          statusMessage := if newOnBreak then "Relax Mode" else "Focus Mode" }
      else
        { s with
          onBreak := newOnBreak
          sessionsCompleted := newSessions
          state := .STOPPED
          statusMessage :=
            if newOnBreak then "[S]tart Relax" else "[S]tart Focus" }
    else s
  else s

/-- The remaining-seconds value the sketch displays for each state:
RUNNING uses the tick computation (line 269), PAUSED uses
`duration - pausedTime / 1000` (line 288), STOPPED shows the full duration
of the current phase (lines 163, 230, 246, 251, 256). -/
def displayRemaining (s : ClockState) (now : Nat) : Int :=
  match s.state with
  | .RUNNING => tickRemaining s now
  | .PAUSED => currentDuration s - ((s.pausedTime / 1000 : Nat) : Int)
  | .STOPPED => currentDuration s

/-- One recognized-command dispatch of the key loop (lines 236-258):
returns the updated state and the `recognized` flag for this character. -/
def handleKey (s : ClockState) (c : Char) (now : Nat) : ClockState × Bool :=
  if c = 'S' ∨ c = 's' then (startTimer s now, true)
  else if c = 'P' ∨ c = 'p' then (pauseTimer s now, true)
  else if c = 'R' ∨ c = 'r' then (resetTimer s now, true)
  else if c = 'A' ∨ c = 'a' then
    ({ s with
       autoStartNext := !s.autoStartNext
       statusMessage :=
         if !s.autoStartNext then "Auto-start: ON" else "Auto-start: OFF" },
     true)
  else if c = '+' ∧ s.state = .STOPPED then
    (if !s.onBreak then { s with focusDuration := s.focusDuration + 60 }
     else { s with breakDuration := s.breakDuration + 60 },
     true)
  else if c = '-' ∧ s.state = .STOPPED then
    (if !s.onBreak ∧ s.focusDuration > 60 then
       { s with focusDuration := s.focusDuration - 60 }
     else if s.onBreak ∧ s.breakDuration > 60 then
       { s with breakDuration := s.breakDuration - 60 }
     else s,
     true)
  else (s, false)

/-- One key event of `loop()` (lines 225-265): when the help overlay is
showing, the event only dismisses it and returns (lines 228-232);
otherwise each character of `keys.word` is dispatched in order and, when
none was recognized, the help overlay is raised. -/
def handleKeyEvent (s : ClockState) (keys : List Char) (now : Nat) : ClockState :=
  if s.showHelp then { s with showHelp := false }
  else
    let r := keys.foldl
      (fun (acc : ClockState × Bool) c =>
        let step := handleKey acc.1 c now
        (step.1, acc.2 || step.2))
      (s, false)
    if r.2 then r.1 else { r.1 with showHelp := true }

/-! ## Progress projection (`drawUI`, lines 87-129)

The snake progress bar consumes `filledLength` greedily over the four
border edges in a fixed order; each edge is capped at its traversable
length.  Geometry is fixed: 240 x 135 screen, border thickness 6. -/

def screenWidth : Int := 240

def screenHeight : Int := 135

def borderThickness : Int := 6

/-- Embeds `totalPerimeter = 2 * (screenWidth + screenHeight) - 4 * borderThickness`
(line 97): 726 for the fixed geometry. -/
def totalPerimeter : Int :=
  2 * (screenWidth + screenHeight) - 4 * borderThickness

/-- Top edge segment (lines 101-105): `min(filledLength, screenWidth -
borderThickness)` when there is anything left to fill, else 0. -/
def projTop (f : Int) : Int :=
  if f > 0 then min f (screenWidth - borderThickness) else 0

/-- What remains of `filledLength` after painting the top edge. -/
def afterTop (f : Int) : Int := f - projTop f

/-- Right edge segment (lines 108-113), capped at
`screenHeight - borderThickness`. -/
def projRight (f : Int) : Int :=
  if afterTop f > 0 then min (afterTop f) (screenHeight - borderThickness) else 0

/-- What remains after the right edge. -/
def afterRight (f : Int) : Int := afterTop f - projRight f

/-- Bottom edge segment (lines 116-122), capped at
`screenWidth - borderThickness`. -/
def projBottom (f : Int) : Int :=
  if afterRight f > 0 then min (afterRight f) (screenWidth - borderThickness) else 0

/-- What remains after the bottom edge. -/
def afterBottom (f : Int) : Int := afterRight f - projBottom f

/-- Left edge segment (lines 125-129), capped at
`screenHeight - 2 * borderThickness`. -/
def projLeft (f : Int) : Int :=
  if afterBottom f > 0 then
    min (afterBottom f) (screenHeight - 2 * borderThickness)
  else 0

/-- The four segment lengths painted for a given `filledLength`, in paint
order top, right, bottom, left. -/
def project (f : Int) : Int × Int × Int × Int :=
  (projTop f, projRight f, projBottom f, projLeft f)

/-- Total painted length for a given `filledLength`. -/
def projectSum (f : Int) : Int :=
  projTop f + projRight f + projBottom f + projLeft f

/-- Embeds `int filledLength = progress * totalPerimeter;` (line 98): for a
progress value in `[0, 1]` the float-to-int conversion truncates the
non-negative product, i.e. takes its floor. -/
def filledOfProgress (p : ℚ) : Int :=
  Int.floor (p * (totalPerimeter : ℚ))

/-! ## Helper lemmas -/

/-- Unsigned 32-bit subtraction of a value from itself is zero. -/
lemma usub32_self (n : Nat) : usub32 n n = 0 := by
  simp [usub32]

/-- Top segment is never negative. -/
lemma projTop_nonneg (f : Int) : 0 ≤ projTop f := by
  simp only [projTop, screenWidth, borderThickness]
  split_ifs <;> omega

/-- Right segment is never negative. -/
lemma projRight_nonneg (f : Int) : 0 ≤ projRight f := by
  simp only [projRight, afterTop, projTop, screenWidth, screenHeight,
    borderThickness]
  split_ifs <;> omega

/-- Bottom segment is never negative. -/
lemma projBottom_nonneg (f : Int) : 0 ≤ projBottom f := by
  simp only [projBottom, afterRight, projRight, afterTop, projTop, screenWidth,
    screenHeight, borderThickness]
  split_ifs <;> omega

/-- Left segment is never negative. -/
lemma projLeft_nonneg (f : Int) : 0 ≤ projLeft f := by
  simp only [projLeft, afterBottom, projBottom, afterRight, projRight, afterTop,
    projTop, screenWidth, screenHeight, borderThickness]
  split_ifs <;> omega

/-- For a non-negative fill the four segments sum to the fill clipped at the
sum of the four edge caps, which is `totalPerimeter - borderThickness = 720`
(not `totalPerimeter = 726`: the caps are 234 + 129 + 234 + 123). -/
lemma projectSum_eq_min (f : Int) (hf : 0 ≤ f) :
    projectSum f = min f (totalPerimeter - borderThickness) := by
  simp only [projectSum, projTop, projRight, projBottom, projLeft, afterTop,
    afterRight, afterBottom, totalPerimeter, screenWidth, screenHeight,
    borderThickness]
  split_ifs <;> omega

/-! ## Claims -/

/-- C1, counterexample: starting a Focus countdown from the initial state and
letting it complete (remaining hits 0 at `now = 30000` for the 30 s focus
duration) flips the phase to Break but leaves `sessionsCompleted` at 0: a
completed Focus phase is NOT counted, refuting the claim that the counter is
incremented exactly once when the completed phase was Focus. -/
theorem sessions_focus_completion_not_incremented :
    ((handleKey initState 'S' 0).1).onBreak = false ∧
    ((handleKey initState 'S' 0).1).state = .RUNNING ∧
    tickRemaining ((handleKey initState 'S' 0).1) 30000 ≤ 0 ∧
    (tick ((handleKey initState 'S' 0).1) 30000).onBreak = true ∧
    (tick ((handleKey initState 'S' 0).1) 30000).sessionsCompleted = 0 := by
  decide

/-- C1, amended: on every completion tick (RUNNING with `remaining ≤ 0`) the
code increments `sessionsCompleted` exactly once if and only if the phase
that just completed was Break, and never when it was Focus: line 274 tests
`!onBreak` after the flip, so the increment fires on Break-to-Focus
transitions. -/
theorem sessions_incremented_iff_break_completed (s : ClockState) (now : Nat)
    (hr : s.state = .RUNNING) (hc : tickRemaining s now ≤ 0) :
    (tick s now).sessionsCompleted =
      s.sessionsCompleted + (if s.onBreak then 1 else 0) := by
  simp only [tick, hr, hc, if_true, if_pos rfl]
  cases hb : s.onBreak <;> cases ha : s.autoStartNext <;> simp

/-- C1, witness: a Break countdown (12 s) completing at `now = 12000`
increments the counter by one. -/
theorem sessions_incremented_iff_break_completed_witness :
    ({ initState with state := .RUNNING, onBreak := true } : ClockState).state
      = .RUNNING ∧
    tickRemaining { initState with state := .RUNNING, onBreak := true } 12000 ≤ 0 ∧
    (tick { initState with state := .RUNNING, onBreak := true } 12000).sessionsCompleted =
      ({ initState with state := .RUNNING, onBreak := true } : ClockState).sessionsCompleted +
        (if ({ initState with state := .RUNNING, onBreak := true } : ClockState).onBreak
         then 1 else 0) :=
  ⟨by decide, by decide,
   sessions_incremented_iff_break_completed
     { initState with state := .RUNNING, onBreak := true } 12000
     (by decide) (by decide)⟩

/-- C2, counterexample: at `progress = 1` the fill is the whole perimeter
(726), but the four painted segments sum to only 720, because the edge caps
`234 + 129 + 234 + 123` leave the final corner (6 px) unpainted; so the
total is not `min(filledLength, totalPerimeter)` and does not reach
`totalPerimeter`. -/
theorem project_full_progress_sum_ne_perimeter :
    projectSum (filledOfProgress 1) = 720 ∧
    totalPerimeter = 726 ∧
    projectSum (filledOfProgress 1) ≠ min (filledOfProgress 1) totalPerimeter := by
  have h : filledOfProgress 1 = 726 := by
    norm_num [filledOfProgress, totalPerimeter, screenWidth, screenHeight,
      borderThickness]
  rw [h]
  exact ⟨by decide, by decide, by decide⟩

/-- C2, amended: for every progress in `[0,1]` the four border segment
lengths are non-negative, all four are zero when `progress ≤ 0`, and their
total equals `min(filledLength, totalPerimeter - borderThickness)` where
`filledLength = floor(progress * totalPerimeter)`; in particular at
`progress = 1` the total is `totalPerimeter - borderThickness = 720`, six
short of the full perimeter. -/
theorem project_conservation (p : ℚ) (h0 : 0 ≤ p) (h1 : p ≤ 1) :
    (0 ≤ projTop (filledOfProgress p) ∧ 0 ≤ projRight (filledOfProgress p) ∧
     0 ≤ projBottom (filledOfProgress p) ∧ 0 ≤ projLeft (filledOfProgress p)) ∧
    (p ≤ 0 → project (filledOfProgress p) = (0, 0, 0, 0)) ∧
    projectSum (filledOfProgress p) =
      min (filledOfProgress p) (totalPerimeter - borderThickness) := by
  have hq : (0 : ℚ) ≤ (totalPerimeter : ℚ) := by
    norm_num [totalPerimeter, screenWidth, screenHeight, borderThickness]
  have hf : 0 ≤ filledOfProgress p :=
    Int.floor_nonneg.mpr (mul_nonneg h0 hq)
  refine ⟨⟨projTop_nonneg _, projRight_nonneg _, projBottom_nonneg _,
    projLeft_nonneg _⟩, ?_, projectSum_eq_min _ hf⟩
  intro hple
  have hp0 : p = 0 := le_antisymm hple h0
  subst hp0
  have hz : filledOfProgress 0 = 0 := by norm_num [filledOfProgress]
  rw [hz]
  decide

/-- C2, witness: at `progress = 1/2` the fill is 363 and the segments sum to
`min 363 720 = 363`. -/
theorem project_conservation_witness :
    ((0 : ℚ) ≤ 1 / 2 ∧ (1 / 2 : ℚ) ≤ 1) ∧
    ((0 ≤ projTop (filledOfProgress (1 / 2)) ∧
      0 ≤ projRight (filledOfProgress (1 / 2)) ∧
      0 ≤ projBottom (filledOfProgress (1 / 2)) ∧
      0 ≤ projLeft (filledOfProgress (1 / 2))) ∧
     ((1 / 2 : ℚ) ≤ 0 → project (filledOfProgress (1 / 2)) = (0, 0, 0, 0)) ∧
     projectSum (filledOfProgress (1 / 2)) =
       min (filledOfProgress (1 / 2)) (totalPerimeter - borderThickness)) :=
  ⟨⟨by norm_num, by norm_num⟩,
   project_conservation (1 / 2) (by norm_num) (by norm_num)⟩

/-- C3, failing input: the sketch initializes `focusDuration` to 30 s
(`0.5 * 60`, contradicting its own "Default: 25 min" comment), so the
reachable durations are not multiples of 60 and the `> 60` decrement guard
does not implement a 60-second floor: from the initial state, one increment
(to 90) followed by one decrement produces 30, which is below 60. -/
theorem focus_duration_floor_violated :
    initState.state = .STOPPED ∧
    initState.focusDuration = 30 ∧
    (handleKey initState '+' 0).1.focusDuration = 90 ∧
    (handleKey (handleKey initState '+' 0).1 '-' 0).1.focusDuration = 30 ∧
    (30 : Int) < 60 := by
  decide

/-- C4, failing input: with `startTime = 5000` and a clock that has moved
back to `now = 4000`, the unsigned 32-bit subtraction of line 268 wraps
around instead of clamping: elapsed becomes 4294966 s, `remaining` goes
negative, and the tick performs an immediate phase completion (state moves
to STOPPED, phase flips to Break) instead of leaving the 30 s countdown in
place. -/
theorem tick_clock_rollback_underflow :
    tickElapsed { initState with state := .RUNNING, startTime := 5000 } 4000
      = 4294966 ∧
    tickRemaining { initState with state := .RUNNING, startTime := 5000 } 4000
      ≤ 0 ∧
    (tick { initState with state := .RUNNING, startTime := 5000 } 4000).state
      = .STOPPED ∧
    (tick { initState with state := .RUNNING, startTime := 5000 } 4000).onBreak
      = true := by
  decide

/-- C5, failing input: from the initial state, start the Focus countdown and
let it complete at `now = 30000` (state STOPPED, phase Break,
`breakDuration = 12`); one increment brings the break duration to 72, and
the next decrement produces 12, which is below the 60-second floor: the
below-floor adjustment is neither clamped to 60 nor rejected. -/
theorem break_duration_decrement_below_floor :
    (tick ((handleKey initState 'S' 0).1) 30000).state = .STOPPED ∧
    (tick ((handleKey initState 'S' 0).1) 30000).onBreak = true ∧
    (handleKey (tick ((handleKey initState 'S' 0).1) 30000) '+' 30000).1.breakDuration
      = 72 ∧
    (handleKey ((handleKey (tick ((handleKey initState 'S' 0).1) 30000) '+' 30000).1)
      '-' 30000).1.breakDuration = 12 ∧
    (12 : Int) < 60 := by
  decide

/-- C6: for a RUNNING state (with `startTime ≤ now < 2^32`, the normal
un-wrapped clock situation), `pauseTimer` immediately followed by
`startTimer` at the same clock value restores `startTime` exactly, so the
state is RUNNING again and the remaining time is preserved exactly. -/
theorem pause_start_roundtrip_preserves_remaining (s : ClockState) (now : Nat)
    (hr : s.state = .RUNNING) (h1 : s.startTime ≤ now) (h2 : now < 2 ^ 32) :
    (startTimer (pauseTimer s now) now).state = .RUNNING ∧
    (startTimer (pauseTimer s now) now).startTime = s.startTime ∧
    tickRemaining (startTimer (pauseTimer s now) now) now
      = tickRemaining s now := by
  have hp : pauseTimer s now =
      { s with
        pausedTime := usub32 now s.startTime
        state := .PAUSED
        statusMessage := "Paused. [S]tart" } := by
    simp [pauseTimer, hr]
  have hst : usub32 now (usub32 now s.startTime) = s.startTime := by
    simp only [usub32]
    omega
  rw [hp]
  simp [startTimer, hst, tickRemaining, currentDuration, tickElapsed]

/-- C6, witness: a running timer started at 1000 ms, paused and restarted at
5000 ms, keeps `startTime = 1000` and its remaining time. -/
theorem pause_start_roundtrip_preserves_remaining_witness :
    (({ initState with state := .RUNNING, startTime := 1000 } : ClockState).state
       = .RUNNING ∧
     ({ initState with state := .RUNNING, startTime := 1000 } : ClockState).startTime
       ≤ 5000 ∧
     5000 < 2 ^ 32) ∧
    ((startTimer (pauseTimer { initState with state := .RUNNING, startTime := 1000 }
        5000) 5000).state = .RUNNING ∧
     (startTimer (pauseTimer { initState with state := .RUNNING, startTime := 1000 }
        5000) 5000).startTime
       = ({ initState with state := .RUNNING, startTime := 1000 } : ClockState).startTime ∧
     tickRemaining (startTimer (pauseTimer
        { initState with state := .RUNNING, startTime := 1000 } 5000) 5000) 5000
       = tickRemaining { initState with state := .RUNNING, startTime := 1000 } 5000) :=
  ⟨⟨by decide, by decide, by decide⟩,
   pause_start_roundtrip_preserves_remaining
     { initState with state := .RUNNING, startTime := 1000 } 5000
     (by decide) (by decide) (by decide)⟩

/-- C7: on every completion tick (RUNNING, `remaining ≤ 0`) the phase flips;
with `autoStartNext = true` the result is RUNNING in the new phase with
`startTime = now`, so the displayed remaining time is the new phase's full
duration (zero elapsed); with `autoStartNext = false` the result is STOPPED
and the displayed remaining time is likewise the new phase's full
duration. -/
theorem completion_tick_autostart_outcome (s : ClockState) (now : Nat)
    (hr : s.state = .RUNNING) (hc : tickRemaining s now ≤ 0) :
    ((tick s now).onBreak = !s.onBreak) ∧
    (s.autoStartNext = true →
      (tick s now).state = .RUNNING ∧
      (tick s now).startTime = now ∧
      displayRemaining (tick s now) now = currentDuration (tick s now)) ∧
    (s.autoStartNext = false →
      (tick s now).state = .STOPPED ∧
      displayRemaining (tick s now) now = currentDuration (tick s now)) := by
  simp only [tick, hr, hc, if_true, if_pos rfl]
  cases ha : s.autoStartNext <;>
    simp [displayRemaining, tickRemaining, tickElapsed, currentDuration,
      usub32_self]

/-- C7, witness: a 30 s Focus countdown with auto-start on, completing at
`now = 30000`, lands RUNNING in the Break phase at full duration. -/
theorem completion_tick_autostart_outcome_witness :
    (({ initState with state := .RUNNING, autoStartNext := true } : ClockState).state
       = .RUNNING ∧
     tickRemaining { initState with state := .RUNNING, autoStartNext := true } 30000
       ≤ 0) ∧
    (((tick { initState with state := .RUNNING, autoStartNext := true } 30000).onBreak
        = !({ initState with state := .RUNNING, autoStartNext := true } : ClockState).onBreak) ∧
     (({ initState with state := .RUNNING, autoStartNext := true } : ClockState).autoStartNext = true →
       (tick { initState with state := .RUNNING, autoStartNext := true } 30000).state
         = .RUNNING ∧
       (tick { initState with state := .RUNNING, autoStartNext := true } 30000).startTime
         = 30000 ∧
       displayRemaining
         (tick { initState with state := .RUNNING, autoStartNext := true } 30000) 30000
         = currentDuration
             (tick { initState with state := .RUNNING, autoStartNext := true } 30000)) ∧
     (({ initState with state := .RUNNING, autoStartNext := true } : ClockState).autoStartNext = false →
       (tick { initState with state := .RUNNING, autoStartNext := true } 30000).state
         = .STOPPED ∧
       displayRemaining
         (tick { initState with state := .RUNNING, autoStartNext := true } 30000) 30000
         = currentDuration
             (tick { initState with state := .RUNNING, autoStartNext := true } 30000))) :=
  ⟨⟨by decide, by decide⟩,
   completion_tick_autostart_outcome
     { initState with state := .RUNNING, autoStartNext := true } 30000
     (by decide) (by decide)⟩

/-- C8: a single tick performs at most one phase transition: whenever the
remaining time is `≤ 0` (including exactly 0, which already counts as
phase-complete, and arbitrarily late ticks whose elapsed time spans many
full durations) the phase flips exactly once to its negation; and when the
remaining time is positive the tick changes nothing at all. -/
theorem tick_single_phase_transition (s : ClockState) (now : Nat)
    (hr : s.state = .RUNNING) :
    (tickRemaining s now ≤ 0 → (tick s now).onBreak = !s.onBreak) ∧
    (0 < tickRemaining s now → tick s now = s) := by
  constructor
  · intro hc
    simp only [tick, hr, hc, if_true, if_pos rfl]
    cases ha : s.autoStartNext <;> simp
  · intro hc
    unfold tick
    rw [if_pos hr, if_neg (by omega)]

/-- C8, witness: a tick arriving at `now = 90000`, three full 30 s focus
durations late, still flips the phase only once. -/
theorem tick_single_phase_transition_witness :
    ({ initState with state := .RUNNING } : ClockState).state = .RUNNING ∧
    tickRemaining { initState with state := .RUNNING } 90000 ≤ 0 ∧
    ((tickRemaining { initState with state := .RUNNING } 90000 ≤ 0 →
       (tick { initState with state := .RUNNING } 90000).onBreak
         = !({ initState with state := .RUNNING } : ClockState).onBreak) ∧
     (0 < tickRemaining { initState with state := .RUNNING } 90000 →
       tick { initState with state := .RUNNING } 90000
         = { initState with state := .RUNNING })) :=
  ⟨by decide, by decide,
   tick_single_phase_transition { initState with state := .RUNNING } 90000
     (by decide)⟩

/-- C9, counterexample: `resetTimer()` does not clear `pausedTime`: resetting
a PAUSED state that captured 5000 ms of elapsed time leaves `pausedTime` at
5000, refuting the claim that reset clears the paused bookkeeping. -/
theorem reset_does_not_clear_pausedTime :
    (resetTimer { initState with state := .PAUSED, pausedTime := 5000 } 9000).pausedTime
      = 5000 ∧
    (5000 : Nat) ≠ 0 := by
  decide

/-- C9, amended: for every state, `resetTimer` forces STOPPED and the Focus
phase and sets `startTime` to the current clock (zero elapsed), but leaves
`pausedTime` unchanged (stale, though only read after being rewritten by
the next pause), and leaves `sessionsCompleted`, `autoStartNext` and both
durations unchanged. -/
theorem reset_frame_conditions (s : ClockState) (now : Nat) :
    (resetTimer s now).state = .STOPPED ∧
    (resetTimer s now).onBreak = false ∧
    (resetTimer s now).startTime = now ∧
    (resetTimer s now).pausedTime = s.pausedTime ∧
    (resetTimer s now).sessionsCompleted = s.sessionsCompleted ∧
    (resetTimer s now).autoStartNext = s.autoStartNext ∧
    (resetTimer s now).focusDuration = s.focusDuration ∧
    (resetTimer s now).breakDuration = s.breakDuration := by
  simp [resetTimer]

/-- C10: whenever the help overlay is showing, the next key event only
dismisses the overlay: the whole event is consumed before command dispatch,
so no key of the event (in particular a Start key) has any effect on the
timer state. -/
theorem help_overlay_consumes_key_event (s : ClockState) (keys : List Char)
    (now : Nat) (h : s.showHelp = true) :
    handleKeyEvent s keys now = { s with showHelp := false } := by
  simp [handleKeyEvent, h]

/-- C10, witness: with the help overlay showing, an event carrying the
Start key only dismisses the overlay and leaves the timer stopped. -/
theorem help_overlay_consumes_key_event_witness :
    ({ initState with showHelp := true } : ClockState).showHelp = true ∧
    handleKeyEvent { initState with showHelp := true } (['S'] : List Char) 0
      = { ({ initState with showHelp := true } : ClockState) with showHelp := false } :=
  ⟨by decide,
   help_overlay_consumes_key_event { initState with showHelp := true }
     (['S'] : List Char) 0 (by decide)⟩
